import Mathlib

/-!
Verification of the fhwise media-player adapter
(src/homeassistant/components/fhwise/media_player.py).

The adapter is embedded shallowly: the mutable entity fields become a
record `PlayerState`, a remote call becomes a `CallResult` value chosen
by the environment, and each command handler becomes a function from the
old state and the remote response to the new state together with the
list of remote calls it issued.  Python floats are modelled by rationals
(0.0625 is exactly representable in binary, so division by it is exact),
Python `int()` truncation by `pyInt`, and the truthiness tests of the
source by comparisons with zero / `false`.
-/

namespace Fhwise

/-- `STATE_PLAYING` from homeassistant.const. -/
def STATE_PLAYING : String := "playing"

/-- `STATE_PAUSED` from homeassistant.const. -/
def STATE_PAUSED : String := "paused"

/-- `STATE_OFF` from homeassistant.const. -/
def STATE_OFF : String := "off"

/-- Result of one remote call to the device client: the call either
returns a value or raises an exception. -/
inductive CallResult (α : Type) where
  | ok (v : α)
  | exn
deriving DecidableEq

/-- The remote operations of the external fhwise client that the
adapter can invoke. -/
inductive RemoteCall where
  | sendPlayPause
  | setVolumeToggleMute
  | setVolumeLevel (v : ℚ)
  | getPlayStatus
  | getVolumeLevel
deriving DecidableEq

/-- The mutable cached fields of `AbstractFhwisePlayer`.  `fhState`
models the attribute `_state` that the play-state handlers assign to;
no property of the class reads it (the `state` property reads
`player_state`, i.e. `_player_state`). -/
structure PlayerState where
  fhState : Option String
  player_state : String
  volume_level : ℚ
  volume_muted : Bool
  shuffle : Bool
  available : Bool
  skip_update : Bool
deriving DecidableEq

/-- The cached fields as set by `AbstractFhwisePlayer.__init__`. -/
def initPlayerState : PlayerState where
  fhState := none
  player_state := STATE_PLAYING
  volume_level := 1
  volume_muted := false
  shuffle := false
  available := false
  skip_update := false

/-- The `state` property: returns `_player_state`. -/
def PlayerState.state (s : PlayerState) : String := s.player_state

/-- The `volume_level` property: returns `_volume_level * 0.0625`. -/
def PlayerState.volumeLevelProp (s : PlayerState) : ℚ :=
  s.volume_level * (0.0625 : ℚ)

/-- The `is_volume_muted` property: returns `_volume_muted`. -/
def PlayerState.is_volume_muted (s : PlayerState) : Bool := s.volume_muted

/-- The `available` property: returns `_available`. -/
def PlayerState.availableProp (s : PlayerState) : Bool := s.available

/-- Python `int()` applied to a rational: truncation toward zero. -/
def pyInt (q : ℚ) : ℤ := if 0 ≤ q then ⌊q⌋ else ⌈q⌉

/-- `_try_command`: runs the remote call; on an exception it logs,
sets `_available = False` and returns `False`; otherwise it returns the
result of the call.  The returned Bool is the Python truthiness of the
returned value. -/
def try_command (s : PlayerState) (r : CallResult Bool) : PlayerState × Bool :=
  match r with
  | .ok v => (s, v)
  | .exn => ({ s with available := false }, false)

/-- `async_turn_on`: if not already playing, send play/pause; on a
truthy result set `_state` (not `_player_state`) and the skip flag. -/
def async_turn_on (s : PlayerState) (r : CallResult Bool) :
    PlayerState × List RemoteCall :=
  if s.player_state ≠ STATE_PLAYING then
    let p := try_command s r
    (if p.2 = true then
       { p.1 with fhState := some STATE_PLAYING, skip_update := true }
     else p.1,
     [RemoteCall.sendPlayPause])
  else (s, [])

/-- `async_turn_off`: if playing, send play/pause; on a truthy result
set `_state` (not `_player_state`) and the skip flag. -/
def async_turn_off (s : PlayerState) (r : CallResult Bool) :
    PlayerState × List RemoteCall :=
  if s.player_state = STATE_PLAYING then
    let p := try_command s r
    (if p.2 = true then
       { p.1 with fhState := some STATE_OFF, skip_update := true }
     else p.1,
     [RemoteCall.sendPlayPause])
  else (s, [])

/-- `media_play`: identical body to `async_turn_on`. -/
def media_play (s : PlayerState) (r : CallResult Bool) :
    PlayerState × List RemoteCall :=
  if s.player_state ≠ STATE_PLAYING then
    let p := try_command s r
    (if p.2 = true then
       { p.1 with fhState := some STATE_PLAYING, skip_update := true }
     else p.1,
     [RemoteCall.sendPlayPause])
  else (s, [])

/-- `media_pause`: identical body to `async_turn_off`. -/
def media_pause (s : PlayerState) (r : CallResult Bool) :
    PlayerState × List RemoteCall :=
  if s.player_state = STATE_PLAYING then
    let p := try_command s r
    (if p.2 = true then
       { p.1 with fhState := some STATE_OFF, skip_update := true }
     else p.1,
     [RemoteCall.sendPlayPause])
  else (s, [])

/-- `mute_volume(mute)`: if the cached mute flag differs from the
request, send the toggle; on a truthy result record the new flag and
set the skip flag. -/
def mute_volume (s : PlayerState) (mute : Bool) (r : CallResult Bool) :
    PlayerState × List RemoteCall :=
  if s.volume_muted ≠ mute then
    let p := try_command s r
    (if p.2 = true then
       { p.1 with volume_muted := mute, skip_update := true }
     else p.1,
     [RemoteCall.setVolumeToggleMute])
  else (s, [])

/-- `volume_up`: always sends `set_volume_level(min(15, level + 1))`;
on a truthy result stores the clamped level and sets the skip flag. -/
def volume_up (s : PlayerState) (r : CallResult Bool) :
    PlayerState × List RemoteCall :=
  let vol := min 15 (s.volume_level + 1)
  let p := try_command s r
  (if p.2 = true then
     { p.1 with volume_level := vol, skip_update := true }
   else p.1,
   [RemoteCall.setVolumeLevel vol])

/-- `volume_down`: always sends `set_volume_level(max(0, level - 1))`;
on a truthy result stores the clamped level and sets the skip flag. -/
def volume_down (s : PlayerState) (r : CallResult Bool) :
    PlayerState × List RemoteCall :=
  let vol := max 0 (s.volume_level - 1)
  let p := try_command s r
  (if p.2 = true then
     { p.1 with volume_level := vol, skip_update := true }
   else p.1,
   [RemoteCall.setVolumeLevel vol])

/-- `set_volume_level(volume)`: computes `int(volume / 0.0625)` and
always sends it; on a truthy result stores it and sets the skip flag. -/
def set_volume_level (s : PlayerState) (volume : ℚ) (r : CallResult Bool) :
    PlayerState × List RemoteCall :=
  let vol : ℚ := (pyInt (volume / (0.0625 : ℚ)) : ℚ)
  let p := try_command s r
  (if p.2 = true then
     { p.1 with volume_level := vol, skip_update := true }
   else p.1,
   [RemoteCall.setVolumeLevel vol])

/-- The command handlers of the adapter, as one dispatchable type. -/
inductive Cmd where
  | turnOn
  | turnOff
  | play
  | pause
  | muteVolume (m : Bool)
  | volumeUp
  | volumeDown
  | setVolumeLevel (v : ℚ)
deriving DecidableEq

/-- Dispatch a command to its handler. -/
def runCmd : Cmd → CallResult Bool → PlayerState → PlayerState × List RemoteCall
  | .turnOn, r, s => async_turn_on s r
  | .turnOff, r, s => async_turn_off s r
  | .play, r, s => media_play s r
  | .pause, r, s => media_pause s r
  | .muteVolume m, r, s => mute_volume s m r
  | .volumeUp, r, s => volume_up s r
  | .volumeDown, r, s => volume_down s r
  | .setVolumeLevel v, r, s => set_volume_level s v r

/-- Run a sequence of commands, each with its own remote response. -/
def runCmds : List (Cmd × CallResult Bool) → PlayerState → PlayerState
  | [], s => s
  | (c, r) :: t, s => runCmds t (runCmd c r s).1

/-- `async_update`: if the skip flag is set, consume it and return.
Otherwise read the play status (through `_try_command`, which swallows
exceptions and yields `False`), set `_player_state` from the
`== 1` test, read the volume level, store it (on an exception the
swallowed `False` behaves as the number 0), recompute the mute flag
from its truthiness, and finally set `_available = True`.  The
`except` branch of the source is unreachable because `_try_command`
never raises. -/
def async_update (s : PlayerState) (rPlay : CallResult ℤ) (rVol : CallResult ℚ) :
    PlayerState × List RemoteCall :=
  if s.skip_update = true then
    ({ s with skip_update := false }, [])
  else
    let p1 : PlayerState × Option ℤ :=
      match rPlay with
      | .ok n => (s, some n)
      | .exn => ({ s with available := false }, none)
    let s2 : PlayerState :=
      if p1.2 = some 1 then { p1.1 with player_state := STATE_PLAYING }
      else { p1.1 with player_state := STATE_PAUSED }
    let p2 : PlayerState × ℚ :=
      match rVol with
      | .ok q => (s2, q)
      | .exn => ({ s2 with available := false }, 0)
    let s3 : PlayerState :=
      { p2.1 with volume_level := p2.2,
                  volume_muted := p2.2 ≠ 0 }
    ({ s3 with available := true },
     [RemoteCall.getPlayStatus, RemoteCall.getVolumeLevel])

/-- The exception raised by a failed platform setup. -/
inductive HAError where
  | platformNotReady
deriving DecidableEq

/-- The four steps of the setup handshake, each of which the
environment may make raise. -/
structure SetupEnv where
  construct : CallResult Unit
  connect : CallResult Unit
  send_heartbeat : CallResult String
  disconnect : CallResult Unit

/-- The `FhwiseMusicPlayer` entity as constructed at setup. -/
structure FhwiseMusicPlayer where
  host : String
  port : ℕ
  model : String
  name : String
  unique_id : String
  cur_track : ℕ
  st : PlayerState
deriving DecidableEq

/-- `FhwiseMusicPlayer.__init__` via `AbstractFhwisePlayer.__init__`. -/
def initEntity (host : String) (port : ℕ) (model name : String) :
    FhwiseMusicPlayer where
  host := host
  port := port
  model := model
  name := name
  unique_id := model ++ "-" ++ host
  cur_track := 0
  st := initPlayerState

/-- `async_setup_platform`: run the handshake (construct the client,
connect, send a heartbeat to read the model, disconnect); any exception
becomes `PlatformNotReady`; on success add exactly one entity. -/
def async_setup_platform (env : SetupEnv) (host name : String) (port : ℕ) :
    Except HAError (List FhwiseMusicPlayer) :=
  match env.construct with
  | .exn => .error .platformNotReady
  | .ok _ =>
    match env.connect with
    | .exn => .error .platformNotReady
    | .ok _ =>
      match env.send_heartbeat with
      | .exn => .error .platformNotReady
      | .ok model =>
        match env.disconnect with
        | .exn => .error .platformNotReady
        | .ok _ => .ok [initEntity host port model name]

/-- A volume command as quantified over by the volume-range claim:
`volume_up`, `volume_down`, or `set_volume_level` with an argument in
the interval from 0 to 1. -/
def VolCmd (c : Cmd) : Prop :=
  c = Cmd.volumeUp ∨ c = Cmd.volumeDown ∨
    ∃ v : ℚ, 0 ≤ v ∧ v ≤ 1 ∧ c = Cmd.setVolumeLevel v

/-- The stored volume level is an integer in the range from 0 to 16. -/
def VolInv (q : ℚ) : Prop :=
  ∃ n : ℤ, q = (n : ℚ) ∧ 0 ≤ n ∧ n ≤ 16

theorem volInv_of_eq {q q2 : ℚ} (h : VolInv q) (he : q2 = q) : VolInv q2 :=
  he ▸ h

theorem volInv_min {q : ℚ} (h : VolInv q) : VolInv (min 15 (q + 1)) := by
  obtain ⟨n, hq, h0, h16⟩ := h
  subst hq
  rcases le_total (15 : ℚ) ((n : ℚ) + 1) with hle | hle
  · exact ⟨15, by rw [min_eq_left hle]; norm_num, by norm_num, by norm_num⟩
  · refine ⟨n + 1, ?_, by omega, ?_⟩
    · rw [min_eq_right hle]
      push_cast
      ring
    · have h15 : (n : ℤ) + 1 ≤ 15 := by exact_mod_cast hle
      omega

theorem volInv_max {q : ℚ} (h : VolInv q) : VolInv (max 0 (q - 1)) := by
  obtain ⟨n, hq, h0, h16⟩ := h
  subst hq
  rcases le_total ((n : ℚ) - 1) (0 : ℚ) with hle | hle
  · exact ⟨0, by rw [max_eq_left hle]; norm_num, le_refl 0, by norm_num⟩
  · refine ⟨n - 1, ?_, ?_, by omega⟩
    · rw [max_eq_right hle]
      push_cast
      ring
    · have : ((0 : ℤ) : ℚ) ≤ ((n - 1 : ℤ) : ℚ) := by push_cast; linarith
      exact_mod_cast this

theorem volInv_pyInt {v : ℚ} (h0 : 0 ≤ v) (h1 : v ≤ 1) :
    VolInv ((pyInt (v / (0.0625 : ℚ)) : ℤ) : ℚ) := by
  have hq0 : 0 ≤ v / (0.0625 : ℚ) := by positivity
  have hq16 : v / (0.0625 : ℚ) ≤ 16 := by
    rw [div_le_iff₀ (by norm_num : (0 : ℚ) < 0.0625)]
    linarith
  refine ⟨pyInt (v / (0.0625 : ℚ)), rfl, ?_, ?_⟩
  · rw [pyInt, if_pos hq0]
    exact Int.floor_nonneg.mpr hq0
  · rw [pyInt, if_pos hq0]
    calc ⌊v / (0.0625 : ℚ)⌋ ≤ ⌊(16 : ℚ)⌋ := Int.floor_le_floor hq16
    _ = 16 := by norm_num

theorem volCmd_preserves_volInv (c : Cmd) (r : CallResult Bool) (s : PlayerState)
    (hc : VolCmd c) (hs : VolInv s.volume_level) :
    VolInv (runCmd c r s).1.volume_level := by
  rcases hc with h | h | ⟨v, hv0, hv1, h⟩ <;> subst h <;>
    cases r <;>
    simp only [runCmd, volume_up, volume_down, set_volume_level, try_command] <;>
    split_ifs <;>
    simp only [min_def, max_def] at * <;>
    first
      | exact hs
      | (refine volInv_of_eq ?_ rfl
         first
           | exact volInv_min hs
           | exact volInv_max hs
           | exact volInv_pyInt hv0 hv1)

theorem volCmds_preserve_volInv :
    ∀ (l : List (Cmd × CallResult Bool)) (s : PlayerState),
      (∀ p ∈ l, VolCmd p.1) → VolInv s.volume_level →
      VolInv (runCmds l s).volume_level := by
  intro l
  induction l with
  | nil => intro s _ hs; exact hs
  | cons p t ih =>
    intro s hl hs
    obtain ⟨c, r⟩ := p
    exact ih _ (fun q hq => hl q (List.mem_cons_of_mem _ hq))
      (volCmd_preserves_volInv c r s (hl ⟨c, r⟩ (List.mem_cons_self _ _)) hs)

/-- C10: every command handler leaves the field `_player_state` (and
hence the `state` property) unchanged, whether the remote call
succeeds, fails, or is skipped by the redundancy guard; among the
modelled operations only `async_update` writes `_player_state`.  (The
play-state handlers assign `STATE_PLAYING` / `STATE_OFF` to the unused
attribute `_state`, modelled as `fhState`.) -/
theorem C10_player_state_frame :
    ∀ (c : Cmd) (r : CallResult Bool) (s : PlayerState),
      (runCmd c r s).1.player_state = s.player_state ∧
      (runCmd c r s).1.state = s.state := by
  intro c r s
  cases c <;> cases r <;>
    simp only [runCmd, PlayerState.state, async_turn_on, async_turn_off,
      media_play, media_pause, mute_volume, volume_up, volume_down,
      set_volume_level, try_command] <;>
    split_ifs <;> simp

/-- C6 amended theorem: when the remote call returns a falsy value
without raising, the handler leaves the whole cached state unchanged —
including the availability flag, which is cleared only on an exception —
and (being a total function on the model) propagates no exception. -/
theorem C6_falsy_return_leaves_state :
    ∀ (c : Cmd) (s : PlayerState), (runCmd c (CallResult.ok false) s).1 = s := by
  intro c s
  cases c <;>
    simp only [runCmd, async_turn_on, async_turn_off, media_play, media_pause,
      mute_volume, volume_up, volume_down, set_volume_level, try_command] <;>
    split_ifs <;> simp_all

/-- C6 counterexample: a command whose remote call returns falsy
without raising does issue the remote call, yet does NOT mark the
adapter unavailable: availability stays true. -/
theorem C6_counterexample :
    (runCmd Cmd.turnOn (CallResult.ok false)
        { initPlayerState with player_state := STATE_PAUSED, available := true }).2
      ≠ [] ∧
    (runCmd Cmd.turnOn (CallResult.ok false)
        { initPlayerState with player_state := STATE_PAUSED, available := true }).1.available
      = true :=
  ⟨by decide, rfl⟩

/-- C7: the redundancy guards: turning on (or play) when already
playing, turning off (or pause) when not playing, and muting to the
already-cached flag, each issue no remote call and leave the state
unchanged. -/
theorem C7_redundancy_guards :
    ∀ (s : PlayerState) (r : CallResult Bool),
      (s.player_state = STATE_PLAYING →
        runCmd Cmd.turnOn r s = (s, []) ∧ runCmd Cmd.play r s = (s, [])) ∧
      (s.player_state ≠ STATE_PLAYING →
        runCmd Cmd.turnOff r s = (s, []) ∧ runCmd Cmd.pause r s = (s, [])) ∧
      (∀ m : Bool, s.volume_muted = m →
        runCmd (Cmd.muteVolume m) r s = (s, [])) := by
  intro s r
  refine ⟨fun h => ⟨?_, ?_⟩, fun h => ⟨?_, ?_⟩, fun m h => ?_⟩ <;>
    simp [runCmd, async_turn_on, async_turn_off, media_play, media_pause,
      mute_volume, h]

/-- C7 witness: at the freshly constructed state (cached state
playing, mute flag false), turn-on, play and mute-to-false are
no-ops issuing no remote call. -/
theorem C7_redundancy_guards_witness :
    (runCmd Cmd.turnOn CallResult.exn initPlayerState = (initPlayerState, []) ∧
      runCmd Cmd.play CallResult.exn initPlayerState = (initPlayerState, [])) ∧
    runCmd (Cmd.muteVolume false) CallResult.exn initPlayerState
      = (initPlayerState, []) :=
  ⟨(C7_redundancy_guards initPlayerState CallResult.exn).1 rfl,
   (C7_redundancy_guards initPlayerState CallResult.exn).2.2 false rfl⟩

/-- C5: if the remote call of a command handler raises (and the call
was actually issued, i.e. not skipped by a guard), the handler leaves
the cached play state, volume level and mute flag unchanged and clears
the availability flag. -/
theorem C5_exception_preserves_cache :
    ∀ (c : Cmd) (s : PlayerState),
      (runCmd c CallResult.exn s).2 ≠ [] →
      (runCmd c CallResult.exn s).1.player_state = s.player_state ∧
      (runCmd c CallResult.exn s).1.volume_level = s.volume_level ∧
      (runCmd c CallResult.exn s).1.volume_muted = s.volume_muted ∧
      (runCmd c CallResult.exn s).1.available = false := by
  intro c s hc
  cases c <;>
    simp only [runCmd, async_turn_on, async_turn_off, media_play, media_pause,
      mute_volume, volume_up, volume_down, set_volume_level, try_command]
      at hc ⊢ <;>
    split_ifs at hc ⊢ <;> simp_all

/-- C5 witness: volume-up with a raising remote call, from the initial
state. -/
theorem C5_exception_preserves_cache_witness :
    (runCmd Cmd.volumeUp CallResult.exn initPlayerState).1.player_state
        = initPlayerState.player_state ∧
    (runCmd Cmd.volumeUp CallResult.exn initPlayerState).1.volume_level
        = initPlayerState.volume_level ∧
    (runCmd Cmd.volumeUp CallResult.exn initPlayerState).1.volume_muted
        = initPlayerState.volume_muted ∧
    (runCmd Cmd.volumeUp CallResult.exn initPlayerState).1.available = false :=
  C5_exception_preserves_cache Cmd.volumeUp initPlayerState (by decide)

/-- C4: the skip-poll flag is consumed exactly once.  (1) When the
flag is set, `async_update` resets it, issues no remote read and
changes no other field.  (2) When it is clear, `async_update` issues
both remote reads.  (3) Every command whose remote call was issued and
returned truthy sets the flag.  (4) Hence the poll after a skipped
poll reads the device normally. -/
theorem C4_skip_poll_consumed_once :
    (∀ (s : PlayerState) (rp : CallResult ℤ) (rv : CallResult ℚ),
      s.skip_update = true →
      async_update s rp rv = ({ s with skip_update := false }, [])) ∧
    (∀ (s : PlayerState) (rp : CallResult ℤ) (rv : CallResult ℚ),
      s.skip_update = false →
      (async_update s rp rv).2
        = [RemoteCall.getPlayStatus, RemoteCall.getVolumeLevel]) ∧
    (∀ (c : Cmd) (s : PlayerState),
      (runCmd c (CallResult.ok true) s).2 ≠ [] →
      (runCmd c (CallResult.ok true) s).1.skip_update = true) ∧
    (∀ (s : PlayerState) (rp rp2 : CallResult ℤ) (rv rv2 : CallResult ℚ),
      s.skip_update = true →
      (async_update (async_update s rp rv).1 rp2 rv2).2
        = [RemoteCall.getPlayStatus, RemoteCall.getVolumeLevel]) := by
  have h1 : ∀ (s : PlayerState) (rp : CallResult ℤ) (rv : CallResult ℚ),
      s.skip_update = true →
      async_update s rp rv = ({ s with skip_update := false }, []) := by
    intro s rp rv h
    simp [async_update, h]
  have h2 : ∀ (s : PlayerState) (rp : CallResult ℤ) (rv : CallResult ℚ),
      s.skip_update = false →
      (async_update s rp rv).2
        = [RemoteCall.getPlayStatus, RemoteCall.getVolumeLevel] := by
    intro s rp rv h
    cases rp <;> cases rv <;> simp [async_update, h]
  refine ⟨h1, h2, ?_, ?_⟩
  · intro c s hc
    cases c <;>
      simp only [runCmd, async_turn_on, async_turn_off, media_play, media_pause,
        mute_volume, volume_up, volume_down, set_volume_level, try_command]
        at hc ⊢ <;>
      split_ifs at hc ⊢ <;> simp_all
  · intro s rp rp2 rv rv2 h
    rw [h1 s rp rv h]
    exact h2 _ rp2 rv2 rfl

/-- C4 witness: concrete runs through both sides of the flag and a
concrete successful command. -/
theorem C4_skip_poll_consumed_once_witness :
    async_update { initPlayerState with skip_update := true }
        (CallResult.ok 1) (CallResult.ok 5)
      = ({ initPlayerState with skip_update := false }, []) ∧
    (async_update initPlayerState (CallResult.ok 1) (CallResult.ok 5)).2
      = [RemoteCall.getPlayStatus, RemoteCall.getVolumeLevel] ∧
    (runCmd Cmd.volumeUp (CallResult.ok true) initPlayerState).1.skip_update
      = true ∧
    (async_update (async_update { initPlayerState with skip_update := true }
        (CallResult.ok 1) (CallResult.ok 5)).1
        (CallResult.ok 1) (CallResult.ok 5)).2
      = [RemoteCall.getPlayStatus, RemoteCall.getVolumeLevel] :=
  ⟨C4_skip_poll_consumed_once.1 _ _ _ rfl,
   C4_skip_poll_consumed_once.2.1 _ _ _ rfl,
   C4_skip_poll_consumed_once.2.2.1 Cmd.volumeUp initPlayerState (by decide),
   C4_skip_poll_consumed_once.2.2.2 _ _ _ _ _ rfl⟩

/-- C8: a poll cycle in which both remote reads return values marks
the adapter available, stores the returned volume level, and sets the
mute flag to the truthiness of that level (nonzero means muted). -/
theorem C8_successful_poll :
    ∀ (s : PlayerState) (p : ℤ) (v : ℚ),
      s.skip_update = false →
      (async_update s (CallResult.ok p) (CallResult.ok v)).1.available = true ∧
      (async_update s (CallResult.ok p) (CallResult.ok v)).1.volume_level = v ∧
      ((async_update s (CallResult.ok p) (CallResult.ok v)).1.volume_muted = true
        ↔ v ≠ 0) := by
  intro s p v h
  simp [async_update, h]

/-- C8 witness: a successful poll returning play status 1 and volume 5
from the initial state. -/
theorem C8_successful_poll_witness :
    (async_update initPlayerState (CallResult.ok 1) (CallResult.ok 5)).1.available
        = true ∧
    (async_update initPlayerState (CallResult.ok 1) (CallResult.ok 5)).1.volume_level
        = 5 ∧
    ((async_update initPlayerState (CallResult.ok 1) (CallResult.ok 5)).1.volume_muted
        = true ↔ (5 : ℚ) ≠ 0) :=
  C8_successful_poll initPlayerState 1 5 rfl

/-- C9: if any step of the setup handshake (client construction,
connect, send-heartbeat, disconnect) raises, setup raises
`PlatformNotReady` and adds no entity; if all four steps return, setup
adds exactly one entity, built from the host, port, heartbeat model
and name. -/
theorem C9_setup_handshake :
    ∀ (env : SetupEnv) (host name : String) (port : ℕ),
      ((env.construct = CallResult.exn ∨ env.connect = CallResult.exn ∨
        env.send_heartbeat = CallResult.exn ∨ env.disconnect = CallResult.exn) →
        async_setup_platform env host name port
          = Except.error HAError.platformNotReady) ∧
      (∀ m : String,
        env.construct = CallResult.ok () → env.connect = CallResult.ok () →
        env.send_heartbeat = CallResult.ok m → env.disconnect = CallResult.ok () →
        async_setup_platform env host name port
          = Except.ok [initEntity host port m name]) := by
  intro env host name port
  obtain ⟨c1, c2, c3, c4⟩ := env
  constructor
  · intro h
    cases c1 <;> cases c2 <;> cases c3 <;> cases c4 <;>
      simp_all [async_setup_platform]
  · intro m h1 h2 h3 h4
    cases c1 <;> cases c2 <;> cases c3 <;> cases c4 <;>
      simp_all [async_setup_platform]

/-- C9 witness: a handshake whose connect step raises yields
`PlatformNotReady`; a fully successful handshake yields exactly the
one entity. -/
theorem C9_setup_handshake_witness :
    async_setup_platform
        ⟨CallResult.ok (), CallResult.exn, CallResult.ok "FH-1", CallResult.ok ()⟩
        "192.168.0.2" "player" 8080
      = Except.error HAError.platformNotReady ∧
    async_setup_platform
        ⟨CallResult.ok (), CallResult.ok (), CallResult.ok "FH-1", CallResult.ok ()⟩
        "192.168.0.2" "player" 8080
      = Except.ok [initEntity "192.168.0.2" 8080 "FH-1" "player"] :=
  ⟨(C9_setup_handshake _ "192.168.0.2" "player" 8080).1 (Or.inr (Or.inl rfl)),
   (C9_setup_handshake _ "192.168.0.2" "player" 8080).2 "FH-1" rfl rfl rfl rfl⟩

/-- C1: the code evaluated at the failing input.  Starting from a
paused cached state, `async_turn_on` with a truthy remote result does
set the skip flag, but the `state` property still reads the old value
`STATE_PAUSED`: the handler writes `STATE_PLAYING` into the unused
attribute `_state` (`fhState`), not into `_player_state`.  Dually for
`async_turn_off` from a playing state. -/
theorem C1_state_property_not_updated :
    (runCmd Cmd.turnOn (CallResult.ok true)
        { initPlayerState with player_state := STATE_PAUSED }).1.skip_update
      = true ∧
    (runCmd Cmd.turnOn (CallResult.ok true)
        { initPlayerState with player_state := STATE_PAUSED }).1.state
      = STATE_PAUSED ∧
    (runCmd Cmd.turnOn (CallResult.ok true)
        { initPlayerState with player_state := STATE_PAUSED }).1.fhState
      = some STATE_PLAYING ∧
    (runCmd Cmd.turnOff (CallResult.ok true) initPlayerState).1.skip_update
      = true ∧
    (runCmd Cmd.turnOff (CallResult.ok true) initPlayerState).1.state
      = STATE_PLAYING ∧
    (runCmd Cmd.turnOff (CallResult.ok true) initPlayerState).1.fhState
      = some STATE_OFF :=
  ⟨rfl, rfl, rfl, rfl, rfl, rfl⟩

/-- C2: the code evaluated at the failing input.  With the skip flag
clear, when `get_play_status` raises and `get_volume_level` returns 5,
`_try_command` swallows the exception and the cycle still runs to the
end: the cached play state is overwritten with `STATE_PAUSED`, the
cached volume with 5, the mute flag with true, and the adapter ends
the cycle marked AVAILABLE — the unreachable except branch of
`async_update` never fires.  The same holds when both reads raise: the
volume becomes the swallowed falsy value (0) and availability is still
true. -/
theorem C2_poll_exception_divergence :
    (async_update
        { initPlayerState with available := true, volume_level := 3,
                               volume_muted := true }
        CallResult.exn (CallResult.ok 5)).1.available = true ∧
    (async_update
        { initPlayerState with available := true, volume_level := 3,
                               volume_muted := true }
        CallResult.exn (CallResult.ok 5)).1.player_state = STATE_PAUSED ∧
    (async_update
        { initPlayerState with available := true, volume_level := 3,
                               volume_muted := true }
        CallResult.exn (CallResult.ok 5)).1.volume_level = 5 ∧
    (async_update
        { initPlayerState with available := true, volume_level := 3,
                               volume_muted := true }
        CallResult.exn CallResult.exn).1.available = true ∧
    (async_update
        { initPlayerState with available := true, volume_level := 3,
                               volume_muted := true }
        CallResult.exn CallResult.exn).1.volume_level = 0 :=
  ⟨rfl, rfl, rfl, rfl, rfl⟩

/-- C3 counterexample: `set_volume_level(1.0)` (the top of the legal
input range) stores `int(1.0 / 0.0625) = 16`, which is outside the
claimed range from 0 to 15. -/
theorem C3_counterexample :
    (runCmds [(Cmd.setVolumeLevel 1, CallResult.ok true)] initPlayerState).volume_level
      = 16 ∧
    ¬ (runCmds [(Cmd.setVolumeLevel 1, CallResult.ok true)] initPlayerState).volume_level
      ≤ 15 := by
  have h : (runCmds [(Cmd.setVolumeLevel 1, CallResult.ok true)]
      initPlayerState).volume_level = 16 := by
    simp [runCmds, runCmd, set_volume_level, try_command, pyInt, initPlayerState]
    norm_num
  exact ⟨h, by rw [h]; norm_num⟩

/-- C3 amended theorem: for every sequence of volume commands
(`set_volume_level` with an argument between 0 and 1, `volume_up`,
`volume_down`), each with an arbitrary remote outcome, the stored
internal volume level stays an integer in the range from 0 to 16 (not
0 to 15: `set_volume_level(1.0)` stores 16); the reported
`volume_level` property always equals the stored level times 0.0625,
and whenever the stored level is in that range the reported value lies
between 0 and 1. -/
theorem C3_volume_range :
    (∀ (l : List (Cmd × CallResult Bool)) (s : PlayerState),
      (∀ p ∈ l, VolCmd p.1) → VolInv s.volume_level →
      VolInv (runCmds l s).volume_level) ∧
    (∀ s : PlayerState, s.volumeLevelProp = s.volume_level * (0.0625 : ℚ)) ∧
    (∀ s : PlayerState, VolInv s.volume_level →
      0 ≤ s.volumeLevelProp ∧ s.volumeLevelProp ≤ 1) := by
  refine ⟨volCmds_preserve_volInv, fun s => rfl, fun s hs => ?_⟩
  obtain ⟨n, hq, h0, h16⟩ := hs
  rw [PlayerState.volumeLevelProp, hq]
  constructor
  · have : (0 : ℚ) ≤ (n : ℚ) := by exact_mod_cast h0
    nlinarith
  · have : (n : ℚ) ≤ 16 := by exact_mod_cast h16
    nlinarith

/-- C3 witness: a concrete volume-command sequence from the initial
state (stored level 1), and the reported level at the initial state. -/
theorem C3_volume_range_witness :
    VolInv (runCmds
        [(Cmd.volumeUp, CallResult.ok true),
         (Cmd.setVolumeLevel (1 / 2), CallResult.ok true),
         (Cmd.volumeDown, CallResult.exn)]
        initPlayerState).volume_level ∧
    (0 ≤ initPlayerState.volumeLevelProp ∧
      initPlayerState.volumeLevelProp ≤ 1) :=
  ⟨C3_volume_range.1
      [(Cmd.volumeUp, CallResult.ok true),
       (Cmd.setVolumeLevel (1 / 2), CallResult.ok true),
       (Cmd.volumeDown, CallResult.exn)]
      initPlayerState
      (by
        intro p hp
        simp only [List.mem_cons, List.not_mem_nil, or_false] at hp
        rcases hp with h | h | h <;> subst h
        · exact Or.inl rfl
        · exact Or.inr (Or.inr ⟨1 / 2, by norm_num, by norm_num, rfl⟩)
        · exact Or.inr (Or.inl rfl))
      ⟨1, by simp [initPlayerState], by norm_num, by norm_num⟩,
   C3_volume_range.2.2 initPlayerState
      ⟨1, by simp [initPlayerState], by norm_num, by norm_num⟩⟩

end Fhwise
